import Mathlib

/-!
Shallow embedding of the LAVA dispatcher core covered by the claims:

* `src/lava_dispatcher/device/target.py` — the `Target` device abstraction
  (base capability methods, the `runner()` context manager) and the
  `SerialIO` dual-sink console transcript writer;
* `src/lava_dispatcher/actions/boot_control.py` — the boot-family actions
  (`cmd_boot_linaro_android_image`, `cmd_boot_linaro_image`,
  `cmd_boot_master_image`) and their shared, class-body-mutated
  `_boot_schema` parameter schema.

Python exceptions are modelled as an explicit error type, raised errors as
`Except` results, and the mutable client/target state as an explicit record
threaded through the action `run` functions.  External collaborators that
the embedded code calls (`client.boot_linaro_image`,
`client.boot_linaro_android_image`, `CommandRunner` from
`lava_dispatcher.client.base`, concrete `power_on` / `power_off`
implementations) live outside the embedded files, so their behaviour is a
parameter of the embedding: the embedded functions are quantified over the
outcome the collaborator produces.
-/

/-- The Python exception taxonomy used by the embedded modules.
`NotImplementedError` is what the abstract `Target` base class raises for a
capability a device variant does not support (the spec calls this kind
`NotSupported`); `ADBConnectError` and `CriticalError` come from
`lava_dispatcher.errors`; `TimeoutError` models a `CommandRunner.run`
prompt timeout; `generic` models any other `Exception`. -/
inductive PyError where
  | NotImplementedError (msg : String)
  | ADBConnectError (msg : String)
  | CriticalError (msg : String)
  | TimeoutError (msg : String)
  | generic (msg : String)
deriving DecidableEq

/-- The message carried by an exception (its `str(e)` / `%s` rendering). -/
def PyError.message : PyError → String
  | .NotImplementedError m => m
  | .ADBConnectError m => m
  | .CriticalError m => m
  | .TimeoutError m => m
  | .generic m => m

/-- The spec's `NotSupported` error kind, realized in the source by the
base class raising `NotImplementedError` for the capability name. -/
def PyError.isNotSupported : PyError → Bool
  | .NotImplementedError _ => true
  | _ => false

/-- The mutable state visible to the boot actions: the client config fields
they assign (`config.boot_cmds`, `config.android_wait_for_home_screen`),
the target device's `boot_options`, the job's append-only `TestData`
result list, and the log of `logging.exception` messages emitted. -/
structure DispatcherState where
  config_boot_cmds : List String
  android_wait_for_home_screen : Bool
  boot_options : List String
  test_data : List (String × String)
  log : List String
deriving DecidableEq

/-- An all-empty starting state, used to evaluate the embedding at
concrete inputs. -/
def initState : DispatcherState :=
  { config_boot_cmds := []
    android_wait_for_home_screen := false
    boot_options := []
    test_data := []
    log := [] }

/-- Lines 82–85 of `cmd_boot_linaro_image.run`: with
`interactive_boot_cmds` truthy the `options` parameter is assigned to
`client.config.boot_cmds`, otherwise to
`client.target_device.boot_options`. -/
def linaro_set_boot_params (options : List String) (interactive_boot_cmds : Bool)
    (s : DispatcherState) : DispatcherState :=
  if interactive_boot_cmds then { s with config_boot_cmds := options }
  else { s with boot_options := options }

/-- `cmd_boot_linaro_image.run(options=[], interactive_boot_cmds=False)`.
The underlying `client.boot_linaro_image()` call is external code, so it is
a parameter `boot` observing the state at the moment of the call.  The
source sets the boot parameters, initialises `status = 'pass'`, runs the
boot call in a `try` block whose bare `except` logs, flips the status to
`'fail'` and raises `CriticalError("Failed to boot test image.")`, and a
`finally` block appends `("boot_image", status)` to `TestData` before any
exception propagates. -/
def cmd_boot_linaro_image_run (options : List String) (interactive_boot_cmds : Bool)
    (boot : DispatcherState → Except PyError Unit) (s : DispatcherState) :
    DispatcherState × Except PyError Unit :=
  let s1 := linaro_set_boot_params options interactive_boot_cmds s
  match boot s1 with
  | .ok () =>
      ({ s1 with test_data := s1.test_data ++ [("boot_image", "pass")] }, .ok ())
  | .error _ =>
      ({ s1 with
          log := s1.log ++ ["boot_linaro_image failed"]
          test_data := s1.test_data ++ [("boot_image", "fail")] },
        .error (.CriticalError "Failed to boot test image."))

/-- Lines 54–58 of `cmd_boot_linaro_android_image.run`: `options` is `None`
or a list (`if not options: options = []` maps `None` and `[]` to `[]`),
then `client.target_device.boot_options` and
`client.config.android_wait_for_home_screen` are assigned. -/
def android_set_boot_params (options : Option (List String))
    (wait_for_home_screen : Bool) (s : DispatcherState) : DispatcherState :=
  let opts := match options with
    | none => []
    | some l => l
  { s with boot_options := opts, android_wait_for_home_screen := wait_for_home_screen }

/-- `cmd_boot_linaro_android_image.run(options=None, adb_check=False,
wait_for_home_screen=True)`.  The external
`client.boot_linaro_android_image(adb_check=adb_check)` call is the
parameter `boot`.  An `ADBConnectError` is logged and re-raised as the same
exception (`raise err`); any other exception is logged and replaced by
`CriticalError("Failed to boot test image.")`. -/
def cmd_boot_linaro_android_image_run (options : Option (List String))
    (adb_check : Bool) (wait_for_home_screen : Bool)
    (boot : DispatcherState → Bool → Except PyError Unit) (s : DispatcherState) :
    DispatcherState × Except PyError Unit :=
  let s1 := android_set_boot_params options wait_for_home_screen s
  match boot s1 adb_check with
  | .ok () => (s1, .ok ())
  | .error (.ADBConnectError msg) =>
      ({ s1 with
          log := s1.log ++
            ["boot_linaro_android_image failed to create the adb connection: " ++ msg] },
        .error (.ADBConnectError msg))
  | .error e =>
      ({ s1 with log := s1.log ++ ["boot_linaro_android_image failed: " ++ e.message] },
        .error (.CriticalError "Failed to boot test image."))

/-- Calling `cmd_boot_linaro_android_image.run` with Python keyword-argument
binding: an omitted argument takes the default from the `def` signature,
`options=None`, `adb_check=False`, `wait_for_home_screen=True`. -/
def cmd_boot_linaro_android_image_call (options : Option (Option (List String)))
    (adbCheckArg : Option Bool) (waitArg : Option Bool)
    (boot : DispatcherState → Bool → Except PyError Unit) (s : DispatcherState) :
    DispatcherState × Except PyError Unit :=
  cmd_boot_linaro_android_image_run (options.getD none) (adbCheckArg.getD false)
    (waitArg.getD true) boot s

/-- The base `Target` class (lines 57–87 of `target.py`): every capability
method of the abstract contract raises `NotImplementedError` with the
capability name as its message (`deploy_linaro` raises it with the string
`deploy_image`, `deploy_android` with `deploy_android_image`, exactly as in
the source). -/
def Target.power_on : Except PyError Unit :=
  .error (.NotImplementedError "power_on")

/-- Base `Target.power_off(proc)`. -/
def Target.power_off (proc : String) : Except PyError Unit :=
  .error (.NotImplementedError "power_off")

/-- Base `Target.deploy_linaro(hwpack, rfs)`. -/
def Target.deploy_linaro (hwpack rfs : String) : Except PyError Unit :=
  .error (.NotImplementedError "deploy_image")

/-- Base `Target.deploy_android(boot, system, userdata)`. -/
def Target.deploy_android (boot system userdata : String) : Except PyError Unit :=
  .error (.NotImplementedError "deploy_android_image")

/-- Base `Target.deploy_linaro_prebuilt(image)`. -/
def Target.deploy_linaro_prebuilt (image : String) : Except PyError Unit :=
  .error (.NotImplementedError "deploy_linaro_prebuilt")

/-- Base `Target.file_system(partition, directory)`: the context-manager
generator raises before ever yielding. -/
def Target.file_system (partition : Nat) (directory : String) : Except PyError Unit :=
  .error (.NotImplementedError "file_system")

/-- Observable calls made by `Target.runner()` on the device: the
`power_on` call, the execution of the wrapped caller code (the `yield`),
the `runner.run('sync', timeout=5)` attempt, and the `power_off` call. -/
inductive RunnerEvent where
  | power_on
  | body
  | sync_attempt
  | power_off
deriving DecidableEq

/-- `Target.runner()` (lines 89–104 of `target.py`), as a trace semantics.
The external behaviours are parameters: `powerOn` is the outcome of
`self.power_on()`, `body` the outcome of the wrapped caller code run at the
`yield`, `sync` the outcome of `runner.run('sync', timeout=5)` in the
`finally` block, and `powerOff` the outcome of `self.power_off(proc)`.
`CommandRunner` lives in `lava_dispatcher.client.base`, outside the
embedded files; per the spec its `run` "fails with a timeout error" when
the prompt does not reappear, so `sync` ranges over `Except` outcomes.

The source wraps the `yield` in `try ... finally`; the `finally` block runs
`if proc: log; runner.run('sync', timeout=5); self.power_off(proc)` with no
handler around the `sync`, so (Python `finally` semantics) an exception
from the `sync` call replaces the pending outcome and skips the
`power_off` call.  The result is the list of calls made, in order, and the
outcome that propagates to the caller. -/
def Target.runner_exec (powerOn body sync powerOff : Except PyError Unit) :
    List RunnerEvent × Except PyError Unit :=
  match powerOn with
  | .error e => ([.power_on], .error e)
  | .ok () =>
      match sync with
      | .error se => ([.power_on, .body, .sync_attempt], .error se)
      | .ok () =>
          match powerOff with
          | .error pe => ([.power_on, .body, .sync_attempt, .power_off], .error pe)
          | .ok () => ([.power_on, .body, .sync_attempt, .power_off], body)

/-- Low-level operations the `SerialIO` writer performs on its two
underlying sinks: a write to the in-memory `StringIO` buffer, a write to
the persistent log stream, a flush of the log stream, and the close of
each sink. -/
inductive SinkEvent where
  | bufferWrite (text : String)
  | logWrite (text : String)
  | logFlush
  | bufferClose
  | logClose
deriving DecidableEq

/-- The `SerialIO` class (lines 110–127 of `target.py`): `serialio` is the
contents of the in-memory `StringIO` buffer, `logfile` the contents so far
of the persistent log stream, and `events` the ordered trace of sink
operations performed. -/
structure SerialIO where
  serialio : String
  logfile : String
  events : List SinkEvent
deriving DecidableEq

/-- `SerialIO.__init__(logfile)`: a fresh empty `StringIO` buffer next to
the given log stream (whose prior contents are `logfile0`). -/
def SerialIO.new (logfile0 : String) : SerialIO :=
  { serialio := "", logfile := logfile0, events := [] }

/-- `SerialIO.write(text)`: `self.serialio.write(text)` then
`self.logfile.write(text)` — buffer first, log stream second. -/
def SerialIO.write (s : SerialIO) (text : String) : SerialIO :=
  { s with
      serialio := s.serialio ++ text
      logfile := s.logfile ++ text
      events := s.events ++ [.bufferWrite text, .logWrite text] }

/-- `SerialIO.flush()`: `self.logfile.flush()` only; the in-memory buffer
is not touched. -/
def SerialIO.flush (s : SerialIO) : SerialIO :=
  { s with events := s.events ++ [.logFlush] }

/-- `SerialIO.close()`: `self.serialio.close()` then
`self.logfile.close()`. -/
def SerialIO.close (s : SerialIO) : SerialIO :=
  { s with events := s.events ++ [.bufferClose, .logClose] }

/-- `SerialIO.getvalue()`: `self.serialio.getvalue()`, the in-memory
buffer's contents. -/
def SerialIO.getvalue (s : SerialIO) : String :=
  s.serialio

/-- A sequence of `write` calls, applied in order. -/
def SerialIO.writeAll (s : SerialIO) (texts : List String) : SerialIO :=
  texts.foldl SerialIO.write s

/-- An interleaving of `write` and `flush` calls on a `SerialIO`. -/
inductive SinkOp where
  | write (text : String)
  | flush
deriving DecidableEq

/-- Apply one interleaved operation. -/
def SerialIO.applyOp (s : SerialIO) : SinkOp → SerialIO
  | .write t => s.write t
  | .flush => s.flush

/-- Apply an interleaving of writes and flushes in order. -/
def SerialIO.applyOps (s : SerialIO) (ops : List SinkOp) : SerialIO :=
  ops.foldl SerialIO.applyOp s

/-- The same interleaving with every `flush` removed. -/
def dropFlushes : List SinkOp → List SinkOp
  | [] => []
  | SinkOp.write t :: rest => SinkOp.write t :: dropFlushes rest
  | SinkOp.flush :: rest => dropFlushes rest

/-- The in-memory transcript accumulated by an interleaving of writes and
flushes, as a pure fold: writes append, flushes are no-ops. -/
def pureTranscript (acc : String) : List SinkOp → String
  | [] => acc
  | SinkOp.write t :: rest => pureTranscript (acc ++ t) rest
  | SinkOp.flush :: rest => pureTranscript acc rest

/-- One entry of a parameter schema's `properties` dict, with the fields
the boot schemas use: an element `type`, an `items` element type for
arrays, the `optional` flag, and a boolean `default`. -/
structure PropertySpec where
  typeName : Option String := none
  itemsType : Option String := none
  optional : Bool := false
  defaultVal : Option Bool := none
deriving DecidableEq

/-- A parameter schema dict: `type`, `properties`, `additionalProperties`. -/
structure Schema where
  typeName : String
  properties : List (String × PropertySpec)
  additionalProperties : Bool
deriving DecidableEq

/-- Python dict item assignment `schema['properties'][k] = v`: replace the
entry if the key is present, otherwise append it. -/
def Schema.setProp (s : Schema) (k : String) (v : PropertySpec) : Schema :=
  if s.properties.any (fun p => p.1 == k) then
    { s with properties := s.properties.map fun p => if p.1 == k then (k, v) else p }
  else
    { s with properties := s.properties ++ [(k, v)] }

/-- The dict literal bound to `_boot_schema` at lines 31–38 of
`boot_control.py`, before any class body runs. -/
def _boot_schema : Schema :=
  { typeName := "object"
    properties :=
      [("options", { typeName := some "array", itemsType := some "string", optional := true })]
    additionalProperties := false }

/-- The state of the (single, shared) `_boot_schema` dict after the class
body of `cmd_boot_linaro_android_image` has executed: it assigned
`parameters_schema = _boot_schema` and then mutated that same dict, adding
the `adb_check` and `wait_for_home_screen` properties. -/
def _boot_schema_after_android : Schema :=
  (_boot_schema.setProp "adb_check" { optional := true, defaultVal := some false }).setProp
    "wait_for_home_screen" { optional := true, defaultVal := some false }

/-- The state of the shared dict after the class body of
`cmd_boot_linaro_image` has also executed, adding
`interactive_boot_cmds`.  This is the dict's state once the module is
loaded. -/
def _boot_schema_final : Schema :=
  _boot_schema_after_android.setProp "interactive_boot_cmds"
    { optional := true, defaultVal := some false }

/-- `cmd_boot_linaro_android_image.parameters_schema` after module load:
the class attribute is a reference to the shared `_boot_schema` dict, so
it sees the mutations made later by `cmd_boot_linaro_image`'s class
body. -/
def cmd_boot_linaro_android_image.parameters_schema : Schema :=
  _boot_schema_final

/-- `cmd_boot_linaro_image.parameters_schema` after module load: the same
shared dict. -/
def cmd_boot_linaro_image.parameters_schema : Schema :=
  _boot_schema_final

/-- The declared `default` of a property, if the property exists. -/
def Schema.propDefault (s : Schema) (k : String) : Option Bool :=
  match s.properties.find? (fun p => p.1 == k) with
  | some p => p.2.defaultVal
  | none => none

/-- Modelled from the spec: the parameter validator applied to an Action's
bound parameters before `run` (the json-schema validation layer in
`lava_dispatcher.actions` is not under `src/`).  Per the spec's schema
interface, a parameter set is rejected when a required (non-`optional`)
field is missing, or when it has a field not declared in `properties`
while `additionalProperties` is `false`.  Only the field names matter for
the claims, so the bound parameters are their key list. -/
def Schema.accepts (s : Schema) (keys : List String) : Bool :=
  (s.additionalProperties || keys.all fun k => s.properties.any fun p => p.1 == k) &&
    s.properties.all fun p => p.2.optional || keys.contains p.1

/-- `linaro_set_boot_params` only touches `config_boot_cmds` or
`boot_options`: the test data, the log and the Android wait flag are
unchanged by the assignment step. -/
theorem linaro_set_boot_params_frame (options : List String) (flag : Bool)
    (s : DispatcherState) :
    (linaro_set_boot_params options flag s).test_data = s.test_data ∧
    (linaro_set_boot_params options flag s).log = s.log ∧
    (linaro_set_boot_params options flag s).android_wait_for_home_screen
      = s.android_wait_for_home_screen := by
  cases flag <;> simp [linaro_set_boot_params]

/-- The in-memory transcript after a sequence of writes is the left fold of
string append over the written texts. -/
theorem serialio_writeAll_getvalue (texts : List String) (s : SerialIO) :
    (s.writeAll texts).getvalue = texts.foldl (fun acc t => acc ++ t) s.getvalue := by
  induction texts generalizing s with
  | nil => rfl
  | cons t ts ih =>
      simpa [ SerialIO.writeAll, SerialIO.write, SerialIO.getvalue] using ih (s.write t)

/-- Applying an interleaving of writes and flushes changes the in-memory
buffer exactly as the pure fold describes. -/
theorem serialio_applyOps_serialio (ops : List SinkOp) (s : SerialIO) :
    (s.applyOps ops).serialio = pureTranscript s.serialio ops := by
  induction ops generalizing s with
  | nil => rfl
  | cons op rest ih =>
      cases op with
      | write t =>
          simpa [ SerialIO.applyOps, SerialIO.applyOp, SerialIO.write, pureTranscript]
            using ih (s.write t)
      | flush =>
          simpa [ SerialIO.applyOps, SerialIO.applyOp, SerialIO.flush, pureTranscript]
            using ih s.flush

/-- Removing the flushes from an interleaving does not change the pure
transcript fold. -/
theorem pureTranscript_dropFlushes (ops : List SinkOp) (acc : String) :
    pureTranscript acc (dropFlushes ops) = pureTranscript acc ops := by
  induction ops generalizing acc with
  | nil => rfl
  | cons op rest ih =>
      cases op with
      | write t => simpa [dropFlushes, pureTranscript] using ih (acc ++ t)
      | flush => simpa [dropFlushes, pureTranscript] using ih acc

/-- C1: the claim states that whenever `power_on` succeeded, scope exit of
`Target.runner()` makes exactly one best-effort `sync` attempt whose own
failure is ignored and then calls `power_off` exactly once, even when the
`sync` attempt fails.  Evaluating the embedded `finally` block at the
failing input — `power_on` succeeds, the wrapped body returns normally,
and `runner.run('sync', timeout=5)` raises a timeout error — shows the
code instead propagates the `sync` failure and never calls `power_off`:
the call trace ends at the `sync` attempt, contradicting the claim and the
method's own docstring (the context "will power off the target when the
context is exited"). -/
theorem runner_sync_failure_skips_power_off :
    Target.runner_exec (Except.ok ()) (Except.ok ())
        (Except.error (PyError.TimeoutError "sync: prompt not seen within 5s"))
        (Except.ok ())
      = ([RunnerEvent.power_on, RunnerEvent.body, RunnerEvent.sync_attempt],
          Except.error (PyError.TimeoutError "sync: prompt not seen within 5s")) := rfl

/-- C2: `cmd_boot_linaro_image.run` appends exactly one
`("boot_image", "pass")` record to `TestData` and raises nothing when the
underlying boot call returns normally, and appends exactly one
`("boot_image", "fail")` record (via the `finally` block) before a
job-fatal `CriticalError` propagates when the underlying boot call raises
any exception. -/
theorem boot_linaro_image_records_result (options : List String) (flag : Bool)
    (boot : DispatcherState → Except PyError Unit) (s : DispatcherState) :
    (boot (linaro_set_boot_params options flag s) = Except.ok () →
      (cmd_boot_linaro_image_run options flag boot s).1.test_data
        = s.test_data ++ [("boot_image", "pass")] ∧
      (cmd_boot_linaro_image_run options flag boot s).2 = Except.ok ()) ∧
    ∀ e, boot (linaro_set_boot_params options flag s) = Except.error e →
      (cmd_boot_linaro_image_run options flag boot s).1.test_data
        = s.test_data ++ [("boot_image", "fail")] ∧
      (cmd_boot_linaro_image_run options flag boot s).2
        = Except.error (PyError.CriticalError "Failed to boot test image.") := by
  have hframe := linaro_set_boot_params_frame options flag s
  constructor
  · intro h
    simp [cmd_boot_linaro_image_run, h, hframe.1]
  · intro e he
    simp [cmd_boot_linaro_image_run, he, hframe.1]

/-- C2 witness: at the concrete input `options = ["console=ttyS0"]`,
`interactive_boot_cmds = false` and the empty starting state, a succeeding
boot leaves exactly the pass record and a failing boot exactly the fail
record. -/
theorem boot_linaro_image_records_result_witness :
    (cmd_boot_linaro_image_run ["console=ttyS0"] false
        (fun _ => Except.ok ()) initState).1.test_data = [("boot_image", "pass")] ∧
    (cmd_boot_linaro_image_run ["console=ttyS0"] false
        (fun _ => Except.error (PyError.generic "boom")) initState).1.test_data
      = [("boot_image", "fail")] := by
  constructor
  · have h := (boot_linaro_image_records_result ["console=ttyS0"] false
      (fun _ => Except.ok ()) initState).1 rfl
    simpa [initState] using h.1
  · have h := (boot_linaro_image_records_result ["console=ttyS0"] false
      (fun _ => Except.error (PyError.generic "boom")) initState).2
      (PyError.generic "boom") rfl
    simpa [initState] using h.1

/-- C3: when the underlying boot call of
`cmd_boot_linaro_android_image.run` raises an `ADBConnectError`, the very
same error (same kind, same message) is re-raised — not wrapped into a
job-fatal kind — and the distinguishing log message is appended before the
re-raise. -/
theorem boot_android_adb_error_reraised (options : Option (List String))
    (adbFlag wfhs : Bool) (boot : DispatcherState → Bool → Except PyError Unit)
    (s : DispatcherState) (msg : String)
    (h : boot (android_set_boot_params options wfhs s) adbFlag
      = Except.error (PyError.ADBConnectError msg)) :
    (cmd_boot_linaro_android_image_run options adbFlag wfhs boot s).2
      = Except.error (PyError.ADBConnectError msg) ∧
    (cmd_boot_linaro_android_image_run options adbFlag wfhs boot s).1.log
      = s.log ++ ["boot_linaro_android_image failed to create the adb connection: " ++ msg] := by
  have hlog : (android_set_boot_params options wfhs s).log = s.log := rfl
  simp [cmd_boot_linaro_android_image_run, h, hlog]

/-- C3 witness: at the concrete input `options = some ["-s"]`,
`adb_check = true`, a boot failing with `ADBConnectError "device offline"`
is re-raised unchanged. -/
theorem boot_android_adb_error_reraised_witness :
    (cmd_boot_linaro_android_image_run (some ["-s"]) true true
        (fun _ _ => Except.error (PyError.ADBConnectError "device offline")) initState).2
      = Except.error (PyError.ADBConnectError "device offline") :=
  (boot_android_adb_error_reraised (some ["-s"]) true true
    (fun _ _ => Except.error (PyError.ADBConnectError "device offline")) initState
    "device offline" rfl).1

/-- C4 counterexample: the claim states the job-fatal error raised for a
non-`ADBConnectError` boot failure carries the original exception's
message in its message/cause.  At the concrete input where the boot call
raises a generic exception with message
`"adb bridge exited with status 1"`, the raised error is
`CriticalError "Failed to boot test image."` — a fixed string in which the
original message does not occur (and Python 2 attaches no cause). -/
theorem boot_android_wrap_drops_cause_counterexample :
    (cmd_boot_linaro_android_image_run (some ["-s"]) true true
        (fun _ _ => Except.error (PyError.generic "adb bridge exited with status 1"))
        initState).2
      = Except.error (PyError.CriticalError "Failed to boot test image.") ∧
    ¬ ("adb bridge exited with status 1".data <:+: "Failed to boot test image.".data) := by
  constructor
  · rfl
  · decide

/-- C4 (amended): when the underlying boot call of
`cmd_boot_linaro_android_image.run` raises any exception that is not an
`ADBConnectError`, the original exception's message is appended to the log
and the exception is replaced by a job-fatal `CriticalError` with the
fixed message `"Failed to boot test image."` (the original message is
preserved only in the log, not on the raised error). -/
theorem boot_android_generic_error_wrapped (options : Option (List String))
    (adbFlag wfhs : Bool) (boot : DispatcherState → Bool → Except PyError Unit)
    (s : DispatcherState) (e : PyError)
    (hb : boot (android_set_boot_params options wfhs s) adbFlag = Except.error e)
    (hadb : ∀ m, e ≠ PyError.ADBConnectError m) :
    (cmd_boot_linaro_android_image_run options adbFlag wfhs boot s).2
      = Except.error (PyError.CriticalError "Failed to boot test image.") ∧
    (cmd_boot_linaro_android_image_run options adbFlag wfhs boot s).1.log
      = s.log ++ ["boot_linaro_android_image failed: " ++ e.message] := by
  have hlog : (android_set_boot_params options wfhs s).log = s.log := rfl
  cases e with
  | ADBConnectError m => exact absurd rfl (hadb m)
  | NotImplementedError m =>
      simp [cmd_boot_linaro_android_image_run, hb, hlog, PyError.message]
  | CriticalError m =>
      simp [cmd_boot_linaro_android_image_run, hb, hlog, PyError.message]
  | TimeoutError m =>
      simp [cmd_boot_linaro_android_image_run, hb, hlog, PyError.message]
  | generic m =>
      simp [cmd_boot_linaro_android_image_run, hb, hlog, PyError.message]

/-- C4 (amended) witness: at the concrete input where the boot call raises
a generic exception with message `"kernel panic"`, the raised error is the
fixed-message `CriticalError` and the log gains the original message. -/
theorem boot_android_generic_error_wrapped_witness :
    (cmd_boot_linaro_android_image_run none false true
        (fun _ _ => Except.error (PyError.generic "kernel panic")) initState).2
      = Except.error (PyError.CriticalError "Failed to boot test image.") ∧
    (cmd_boot_linaro_android_image_run none false true
        (fun _ _ => Except.error (PyError.generic "kernel panic")) initState).1.log
      = ["boot_linaro_android_image failed: " ++ "kernel panic"] := by
  have h := boot_android_generic_error_wrapped none false true
    (fun _ _ => Except.error (PyError.generic "kernel panic")) initState
    (PyError.generic "kernel panic") rfl (fun m hm => PyError.noConfusion hm)
  exact ⟨h.1, by simpa [initState, PyError.message] using h.2⟩

/-- C5: on a `SerialIO` that has only seen writes, `getvalue()` returns the
concatenation of everything written, in call order: after
`write(a); write(b)` on a fresh sink it is exactly `a ++ b`, after any
write sequence it is the fold of append over the texts, and each single
`write` performs the buffer append first and the log-stream append second
(the trace records `bufferWrite` before `logWrite`, and the log stream
also receives the text). -/
theorem serial_io_transcript_concat (a b : String) (texts : List String)
    (l0 : String) (s : SerialIO) (t : String) :
    ((( SerialIO.new l0).write a).write b).getvalue = a ++ b ∧
    (s.writeAll texts).getvalue = texts.foldl (fun acc u => acc ++ u) s.getvalue ∧
    (s.write t).events = s.events ++ [SinkEvent.bufferWrite t, SinkEvent.logWrite t] ∧
    (s.write t).logfile = s.logfile ++ t := by
  refine ⟨?_, serialio_writeAll_getvalue texts s, rfl, rfl⟩
  simp [ SerialIO.new, SerialIO.write, SerialIO.getvalue]

/-- C6: every capability the abstract `Target` base class does not
implement — `power_on`, `power_off`, `deploy_linaro`, `deploy_android`,
`deploy_linaro_prebuilt`, `file_system` — fails with the `NotSupported`
error kind (realized as `NotImplementedError`) instead of performing any
default behaviour. -/
theorem target_base_capabilities_not_supported :
    (∃ e, Target.power_on = Except.error e ∧ e.isNotSupported = true) ∧
    (∀ proc, ∃ e, Target.power_off proc = Except.error e ∧ e.isNotSupported = true) ∧
    (∀ hwpack rfs, ∃ e,
      Target.deploy_linaro hwpack rfs = Except.error e ∧ e.isNotSupported = true) ∧
    (∀ b sys ud, ∃ e,
      Target.deploy_android b sys ud = Except.error e ∧ e.isNotSupported = true) ∧
    (∀ image, ∃ e,
      Target.deploy_linaro_prebuilt image = Except.error e ∧ e.isNotSupported = true) ∧
    (∀ p d, ∃ e, Target.file_system p d = Except.error e ∧ e.isNotSupported = true) :=
  ⟨⟨_, rfl, rfl⟩, fun _ => ⟨_, rfl, rfl⟩, fun _ _ => ⟨_, rfl, rfl⟩,
    fun _ _ _ => ⟨_, rfl, rfl⟩, fun _ => ⟨_, rfl, rfl⟩, fun _ _ => ⟨_, rfl, rfl⟩⟩

/-- C7: `cmd_boot_linaro_image.run` assigns `options` to
`config.boot_cmds` when `interactive_boot_cmds` is true, leaving
`boot_options` unchanged, and to the Target's `boot_options` otherwise,
leaving `config.boot_cmds` unchanged; the assignment is visible to the
boot call (the boot call only ever observes the mutated state) and
persists in the state `run` returns. -/
theorem boot_linaro_image_sets_params_before_boot (options : List String)
    (s : DispatcherState) (boot : DispatcherState → Except PyError Unit) (flag : Bool) :
    (linaro_set_boot_params options true s).config_boot_cmds = options ∧
    (linaro_set_boot_params options true s).boot_options = s.boot_options ∧
    (linaro_set_boot_params options false s).boot_options = options ∧
    (linaro_set_boot_params options false s).config_boot_cmds = s.config_boot_cmds ∧
    cmd_boot_linaro_image_run options flag boot s
      = cmd_boot_linaro_image_run options flag
          (fun _ => boot (linaro_set_boot_params options flag s)) s ∧
    (cmd_boot_linaro_image_run options flag boot s).1.config_boot_cmds
      = (linaro_set_boot_params options flag s).config_boot_cmds ∧
    (cmd_boot_linaro_image_run options flag boot s).1.boot_options
      = (linaro_set_boot_params options flag s).boot_options := by
  refine ⟨by simp [linaro_set_boot_params], by simp [linaro_set_boot_params],
    by simp [linaro_set_boot_params], by simp [linaro_set_boot_params], rfl, ?_, ?_⟩ <;>
  · cases hb : boot (linaro_set_boot_params options flag s) <;>
      simp [cmd_boot_linaro_image_run, hb]

/-- C8: `SerialIO.flush()` touches only the persistent log stream (its
trace effect is a single `logFlush`, and neither sink's contents change),
so for any interleaving of writes and flushes the transcript returned by
`getvalue()` equals the transcript of the same sequence with every flush
removed. -/
theorem serial_io_flush_frame (s : SerialIO) (ops : List SinkOp) :
    (s.applyOps ops).getvalue = (s.applyOps (dropFlushes ops)).getvalue ∧
    s.flush.serialio = s.serialio ∧
    s.flush.logfile = s.logfile ∧
    s.flush.events = s.events ++ [SinkEvent.logFlush] := by
  refine ⟨?_, rfl, rfl, rfl⟩
  simp [ SerialIO.getvalue, serialio_applyOps_serialio, pureTranscript_dropFlushes]

/-- C9: the two boot actions bind the same `_boot_schema` dict as their
`parameters_schema` and mutate it in their class bodies at module load, so
the schemas are one and the same: both end up with the properties
`options`, `adb_check`, `wait_for_home_screen` and
`interactive_boot_cmds`, with `additionalProperties` false — and
validation of one action therefore accepts the fields only the other
action declares. -/
theorem boot_schema_shared_mutation :
    cmd_boot_linaro_image.parameters_schema
      = cmd_boot_linaro_android_image.parameters_schema ∧
    cmd_boot_linaro_image.parameters_schema.properties.map Prod.fst
      = ["options", "adb_check", "wait_for_home_screen", "interactive_boot_cmds"] ∧
    cmd_boot_linaro_image.parameters_schema.additionalProperties = false ∧
    cmd_boot_linaro_image.parameters_schema.accepts
        ["adb_check", "wait_for_home_screen"] = true ∧
    cmd_boot_linaro_android_image.parameters_schema.accepts
        ["interactive_boot_cmds"] = true := by
  refine ⟨rfl, ?_, rfl, ?_, ?_⟩ <;> decide

/-- C10: calling `cmd_boot_linaro_android_image.run` without a
`wait_for_home_screen` argument binds the `def`-signature default `True`,
so the Target's `config.android_wait_for_home_screen` ends up `true` on
every boot outcome — although the declared parameter schema gives
`wait_for_home_screen` a default of `False`. -/
theorem boot_android_omitted_wait_defaults_true
    (options : Option (Option (List String))) (adbArg : Option Bool)
    (boot : DispatcherState → Bool → Except PyError Unit) (s : DispatcherState) :
    (cmd_boot_linaro_android_image_call options adbArg none boot s).1.android_wait_for_home_screen
      = true ∧
    cmd_boot_linaro_android_image.parameters_schema.propDefault "wait_for_home_screen"
      = some false := by
  refine ⟨?_, by decide⟩
  simp only [cmd_boot_linaro_android_image_call, cmd_boot_linaro_android_image_run,
    Option.getD_none]
  cases hb : boot (android_set_boot_params (options.getD none) true s) (adbArg.getD false) with
  | ok v => simp [android_set_boot_params]
  | error e => cases e <;> simp [android_set_boot_params]
